import Mathlib

/-!
Shallow embedding of the stm32loader bootloader protocol engine
(`src/stm32loader/bootloader.py` and `src/stm32loader/devices.py`).

The transport (`CANConnection` in `src/stm32loader/canconnection.py`) is
modelled by an explicit state `St`:
* `St.ints` is the sequence of results of successive `connection.readnewint()`
  calls: `some v` means a frame arrived whose payload decodes to the integer
  `v`, `none` means the receive timed out (`readnewint` returns `(None, None)`
  after `bus.recv` times out; once the stream is exhausted every further
  receive times out as well).
* `St.sent` is the ordered log of frames written with `connection.write`,
  one entry per `write` call (a frame is its payload byte list).

Python exceptions are modelled with an explicit error type; operations return
`Res α × St` so that the transmit log survives an exception, exactly as the
object state does in Python.
-/

namespace Stm32

/-- `Reply.ACK` (0x79) from `Stm32Bootloader.Reply`. -/
def ACK : Nat := 0x79

/-- `Reply.NACK` (0x1F) from `Stm32Bootloader.Reply`. -/
def NACK : Nat := 0x1F

/-- The Python exceptions that the embedded code can raise.
`commandError`, `dataLengthError`, `pageIndexError` and
`deviceDetectionError` are the exception classes declared in
`bootloader.py`; `attributeError`, `nameError` and `typeError` are the
built-in Python exceptions raised by attribute lookup on a missing method,
by use of an undefined variable, and by operations on `None`. `hang` marks
a loop in the source that never terminates (it keeps re-sending and
re-reading forever once the incoming stream is exhausted). -/
inductive Err where
  | commandError (msg : String)
  | dataLengthError (msg : String)
  | pageIndexError (msg : String)
  | deviceDetectionError (msg : String)
  | attributeError (missing : String)
  | nameError (undefined : String)
  | typeError
  | indexError
  | hang
deriving DecidableEq

/-- Result of running a method: normal return or a raised exception. -/
inductive Res (α : Type) where
  | ok (a : α)
  | err (e : Err)
deriving DecidableEq

/-- The transport state seen by the engine: pending `readnewint` results and
the log of transmitted frames. -/
structure St where
  ints : List (Option Nat)
  sent : List (List Nat)
deriving DecidableEq

/-- Append transmitted frames to the log (the effect of `connection.write`). -/
def sendFrames (frames : List (List Nat)) (s : St) : St :=
  { s with sent := s.sent ++ frames }

/-- `connection.readnewint()`: pop the next receive result; an exhausted
stream keeps timing out (`none`). -/
def recvInt (s : St) : Option Nat × St :=
  match s.ints with
  | [] => (none, s)
  | x :: rest => (x, { s with ints := rest })

/-- One argument of `Stm32Bootloader.write(*data)`: either an `int`
(packed to a single byte with `struct.pack("B", n)`, which requires
`n < 256`) or a byte sequence. -/
inductive WData where
  | int (n : Nat)
  | bytes (bs : List Nat)

/-- The frame written for one `write` argument.  `struct.pack("B", n)`
raises `struct.error` for `n ≥ 256`; every call site passes values below
256, so the `% 256` here is value-preserving at all call sites. -/
def WData.toFrame : WData → List Nat
  | .int n => [n % 256]
  | .bytes bs => bs

/-- `Stm32Bootloader.write(*data)`: one `connection.write` per argument. -/
def writeData (items : List WData) (s : St) : St :=
  sendFrames (items.map WData.toFrame) s

/-- The retry loop of `Stm32Bootloader.write_and_ack`: re-send the frames and
read until `readnewint` returns an actual frame (`msg is not None`).  If the
incoming stream is exhausted every receive times out and the loop never
terminates, which is reported as `Err.hang`. -/
def writeAndAckRead (frames : List (List Nat)) : List (Option Nat) → List (List Nat) → Res Nat × St
  | [], sent => (.err .hang, { ints := [], sent := sent ++ frames })
  | none :: rest, sent => writeAndAckRead frames rest (sent ++ frames)
  | some v :: rest, sent => (.ok v, { ints := rest, sent := sent ++ frames })

/-- `Stm32Bootloader.write_and_ack`: returns whether the received value is
`ACK` (a non-ACK value is only logged via `debug`). -/
def write_and_ack (frames : List (List Nat)) (s : St) : Res Bool × St :=
  match writeAndAckRead frames s.ints s.sent with
  | (.ok v, s') => (.ok (v == ACK), s')
  | (.err e, s') => (.err e, s')

/-- `Stm32Bootloader.command`: send the command frame and raise
`CommandError` when no ACK was replied. -/
def command (frames : List (List Nat)) (description : String) (s : St) : Res Unit × St :=
  match write_and_ack frames s with
  | (.ok true, s') => (.ok (), s')
  | (.ok false, s') => (.err (.commandError (description ++ " failed: no ack")), s')
  | (.err e, s') => (.err e, s')

/-- `Stm32Bootloader.DATA_TRANSFER_SIZE` (`dict.get` semantics: `none` for a
missing key). -/
def DATA_TRANSFER_SIZE : String → Option Nat
  | "default" => some 256
  | "F0" => some 256
  | "F1" => some 256
  | "F3" => some 256
  | "F4" => some 256
  | "F7" => some 256
  | "L4" => some 256
  | "L0" => some 128
  | "G0" => some 256
  | "WL" => some 256
  | "NRG" => some 256
  | "H5" => some 256
  | "H7" => some 256
  | _ => none

/-- `Stm32Bootloader.FLASH_PAGE_SIZE` (`dict.get` semantics). -/
def FLASH_PAGE_SIZE : String → Option Nat
  | "default" => some 1024
  | "F0" => some 1024
  | "F1" => some 1024
  | "F3" => some 2048
  | "F4" => some 1024
  | "F7" => some 1024
  | "L4" => some 1024
  | "L0" => some 128
  | "G0" => some 1024
  | "WL" => some 1024
  | "NRG" => some 2048
  | "H5" => some (128 * 1024)
  | "H7" => some (128 * 1024)
  | _ => none

/-- `Stm32Bootloader.FLASH_SIZE_ADDRESS` (`dict.get` semantics; note this
table has no `"default"` key). -/
def FLASH_SIZE_ADDRESS : String → Option Nat
  | "F0" => some 0x1FFFF7CC
  | "F1" => some 0x1FFFF7E0
  | "F3" => some 0x1FFFF7CC
  | "F4" => some 0x1FFF7A22
  | "F7" => some 0x1FF0F442
  | "H7" => some 0x1FF1E880
  | "L4" => some 0x1FFF75E0
  | "L0" => some 0x1FF8007C
  | "G0" => some 0x1FFF75E0
  | "WL" => some 0x1FFF75E0
  | "NRG" => some 0x40100014
  | _ => none

/-- `dict.get(device_family)` where `device_family` is an optional string
(the constructor default is `None`; `dict.get(None)` is `None` since no table
has a `None` key). -/
def dictGet (table : String → Option Nat) : Option String → Option Nat
  | none => none
  | some k => table k

/-- `self.data_transfer_size` as assigned in `Stm32Bootloader.__init__`
(lines 373-375). -/
def init_data_transfer_size (device_family : Option String) : Option Nat :=
  let v := DATA_TRANSFER_SIZE "default"
  if (dictGet DATA_TRANSFER_SIZE device_family).isSome then
    dictGet DATA_TRANSFER_SIZE device_family
  else v

/-- `self.flash_page_size` as assigned in `Stm32Bootloader.__init__`
(lines 377-383): it is first set from `FLASH_PAGE_SIZE`, but then
unconditionally overwritten from `FLASH_SIZE_ADDRESS` (whose `"default"`
lookup yields `None`), so the earlier page-size value is dead. -/
def init_flash_page_size (device_family : Option String) : Option Nat :=
  let _pageValue :=
    let v := FLASH_PAGE_SIZE "default"
    if (dictGet FLASH_PAGE_SIZE device_family).isSome then
      dictGet FLASH_PAGE_SIZE device_family
    else v
  let v₂ := dictGet FLASH_SIZE_ADDRESS (some "default")
  if (dictGet FLASH_SIZE_ADDRESS device_family).isSome then
    dictGet FLASH_SIZE_ADDRESS device_family
  else v₂

/-- `struct.pack(">i", address)` for `address < 2^31`: the four big-endian
address bytes used in READ_MEMORY/WRITE_MEMORY command frames. -/
def encodeAddr (address : Nat) : List Nat :=
  [address / 2 ^ 24 % 256, address / 2 ^ 16 % 256, address / 2 ^ 8 % 256, address % 256]

/-- The data-frame loop of `Stm32Bootloader.write_memory` (lines 649-657):
split the (padded) payload into transport-sized chunks, each sent as one
frame prefixed by the WRITE_MEMORY opcode byte (`senddata[0] = 0x31`).
`fuel` makes the recursion structural: each iteration removes
`min bts mts ≥ 1` bytes, so `fuel = bts` at the entry point
(`writeMemChunks`) never runs out and the guard below is exact.  The
`mts = 0` disjunct only closes off a case in which the source loop would
not terminate; the `max_transfer_size` of the transport is positive. -/
def writeMemChunksLoop (mts : Nat) (data : List Nat) : Nat → Nat → Nat → List (List Nat)
  | 0, _, _ => []
  | fuel + 1, offset, bts =>
    if bts = 0 ∨ mts = 0 then []
    else
      let t := min bts mts
      (0x31 :: ((data.drop offset).take t)) :: writeMemChunksLoop mts data fuel (offset + t) (bts - t)

/-- The data-frame loop of `write_memory`, entered at offset 0 with `bts`
bytes left to send (see `writeMemChunksLoop`). -/
def writeMemChunks (mts : Nat) (data : List Nat) (offset bts : Nat) : List (List Nat) :=
  writeMemChunksLoop mts data bts offset bts

/-- `Stm32Bootloader.write_memory(address, data)` (lines 627-661).
Returns the raised exception or normal return, the buffer of the caller
after the call (`data.extend` pads that `bytearray` in place), and the
transport state.  A non-ACK trailing status byte is only logged
(`debug(0, "Programming failed")`). -/
def write_memory (dts mts address : Nat) (data : List Nat) (s : St) :
    Res Unit × List Nat × St :=
  let bytestosend := data.length
  if bytestosend = 0 then (.ok (), data, s)
  else if dts < bytestosend then
    (.err (.dataLengthError "Can not write more than 256 bytes at once."), data, s)
  else
    match command [0x31 :: encodeAddr address ++ [bytestosend - 1]] "Write memory" s with
    | (.err e, s₁) => (.err e, data, s₁)
    | (.ok _, s₁) =>
      let padded :=
        if bytestosend % 4 ≠ 0 then
          data ++ List.replicate (4 - bytestosend % 4) 0xFF
        else data
      let s₂ := sendFrames (writeMemChunks mts padded 0 padded.length) s₁
      let (_ack, s₃) := recvInt s₂
      (.ok (), padded, s₃)

/-- The retry loop of `Stm32Bootloader._wait_for_ack` (lines 853-861):
up to `retries` receives, looping on NACK and breaking on anything else.
When the budget is exhausted the loop exits with the last read value, which
was necessarily a NACK (`retries = 0` is only reached after a NACK read). -/
def waitLoopRead : Nat → St → Option Nat × St
  | 0, s => (some NACK, s)
  | n + 1, s =>
    let (ack, s₁) := recvInt s
    if ack = some NACK then waitLoopRead n s₁ else (ack, s₁)

/-- `Stm32Bootloader._wait_for_ack` (lines 851-874).  After the retry loop,
a `None` value raises `CommandError`; otherwise the source performs one
further `readnewint` and returns whether that second value equals `ACK`.
The statements after this `return` (lines 869-874, which reference an
undefined name `reply`) are unreachable and therefore have no embedding. -/
def wait_for_ack (s : St) : Res Bool × St :=
  let (ack, s₁) := waitLoopRead 5 s
  if ack = none then (.err (.commandError "Can\x27t read port or timeout"), s₁)
  else
    let (ack₂, s₂) := recvInt s₁
    (.ok (ack₂ == some ACK), s₂)

/-- `Stm32Bootloader.extended_erase_memory` (lines 704-724).  The command
frame is `struct.pack(">bH", 0x44, EraseBank.ALL)` = `[0x44, 0xFF, 0xFF]`
(the `pages` argument is unused by the source).  In the final branch the
source evaluates `hex(reply)` where no variable `reply` is in scope, so a
status byte other than ACK/NACK raises `NameError`, not `CommandError`. -/
def extended_erase_memory (s : St) : Res Unit × St :=
  match command [[0x44, 0xFF, 0xFF]] "Erase memory" s with
  | (.err e, s₁) => (.err e, s₁)
  | (.ok _, s₁) =>
    let (ack, s₂) := recvInt s₁
    if ack = some NACK then (.err (.commandError "NACK erase command"), s₂)
    else if ack ≠ some ACK then (.err (.nameError "reply"), s₂)
    else (.ok (), s₂)

/-- The tail of `Stm32Bootloader.erase_memory`: `self._wait_for_ack("0x43
erase failed")`, whose boolean result is discarded (only a raised
`CommandError` propagates). -/
def eraseWaitForAck (s : St) : Res Unit × St :=
  match wait_for_ack s with
  | (.err e, s') => (.err e, s')
  | (.ok _, s') => (.ok (), s')

/-- The `if pages: ... else: ...` part of `Stm32Bootloader.erase_memory`
(lines 686-701), applied to the page list in effect after the L0 special
case (`range(page_count)` for the L0 global erase, the list given by the caller
otherwise; `pages = None` is the empty list here).  An empty list is falsy,
selecting the global-erase branch `self.write(255, 0)`. -/
def erasePagesBranch (pages : List Nat) (s : St) : Res Unit × St :=
  if pages.isEmpty then
    eraseWaitForAck (writeData [.int 255, .int 0] s)
  else if 255 < pages.length then
    (.err (.pageIndexError
      "Can not erase more than 255 pages at once. Set pages to None to do global erase or supply fewer pages."), s)
  else
    let page_count := pages.length - 1
    let checksum := pages.foldl (fun a b => a ^^^ b) page_count
    eraseWaitForAck (writeData [.int page_count, .bytes pages, .int checksum] s)

/-- `Stm32Bootloader.erase_memory` (lines 663-702).  `extended_erase`,
`device_family`, `flash_size` (the value `get_flash_size_and_uid` would
return, in KiB) and `flash_page_size` are the session state the method
reads.  `pages = none` is the Python `pages=None`. -/
def erase_memory (extended_erase : Bool) (device_family : String)
    (flash_size flash_page_size : Nat) (pages : Option (List Nat)) (s : St) :
    Res Unit × St :=
  if extended_erase then extended_erase_memory s
  else
    match command [[0x43]] "Erase memory" s with
    | (.err e, s₁) => (.err e, s₁)
    | (.ok _, s₁) =>
      let pages0 := pages.getD []
      if pages0.isEmpty && device_family == "L0" then
        let page_count := flash_size * 1024 / flash_page_size
        if 255 < page_count then
          (.err (.pageIndexError "Can not erase more than 255 pages for L0 family."), s₁)
        else erasePagesBranch (List.range page_count) s₁
      else erasePagesBranch pages0 s₁

/-- The supported-command read loop of `Stm32Bootloader.get`
(lines 433-435): `numcmds` successive `readnewint` calls. -/
def readCmds : Nat → St → List (Option Nat) × St
  | 0, s => ([], s)
  | n + 1, s =>
    let (c, s₁) := recvInt s
    let (cs, s₂) := readCmds n s₁
    (c :: cs, s₂)

/-- What `Stm32Bootloader.get` produces: its return value (the version byte
read from the device, `None` if that receive timed out) and the session
state it assigns (`supported_commands` and `extended_erase`). -/
structure GetResult where
  version : Option Nat
  supported_commands : List Nat
  extended_erase : Bool
deriving DecidableEq

/-- `Stm32Bootloader.get` (lines 425-444).  After the GET opcode is ACKed,
read a count, the version, `count` opcode bytes and a trailing status byte.
A non-ACK trailing byte only logs `"Get command not completed"`.  A timed-out
count raises `TypeError` at `range(0, None)`; a timed-out opcode byte raises
`TypeError` at `hex(None)` inside the trailing `debug` call (whose argument
string is built eagerly regardless of verbosity). -/
def get (s : St) : Res GetResult × St :=
  match command [[0x00]] "Get" s with
  | (.err e, s₁) => (.err e, s₁)
  | (.ok _, s₁) =>
    let (numcmds, s₂) := recvInt s₁
    let (version, s₃) := recvInt s₂
    match numcmds with
    | none => (.err .typeError, s₃)
    | some n =>
      let (cmds, s₄) := readCmds n s₃
      let (_ack, s₅) := recvInt s₄
      if cmds.all Option.isSome then
        let supported := cmds.map (fun c => c.getD 0)
        (.ok { version := version, supported_commands := supported,
               extended_erase := supported.contains 0x44 }, s₅)
      else (.err .typeError, s₅)

/-- A single logical read of `length` bytes of memory starting at
`address`; `read_memory_data` is compared against this. -/
def logicalRead (mem : Nat → Nat) (address length : Nat) : List Nat :=
  (List.range length).map (fun i => mem (address + i))

/-- `Stm32Bootloader.read_memory_data(address, length)` (lines 764-781),
with `self.read_memory` abstracted as `readMem` (the value a successful
underlying single-frame read returns) and `self.data_transfer_size` as
`dts`.  The loop reads `min length dts` bytes per step and advances the
address accordingly.  The `dts = 0` guard closes off a case in which the
source loop would not terminate; every configured transfer size is
positive. -/
def readMemoryDataLoop (readMem : Nat → Nat → List Nat) (dts : Nat) :
    Nat → Nat → Nat → List Nat
  | 0, _, _ => []
  | fuel + 1, address, length =>
    if length = 0 ∨ dts = 0 then []
    else
      let read_length := min length dts
      readMem address read_length ++
        readMemoryDataLoop readMem dts fuel (address + read_length) (length - read_length)

/-- `read_memory_data` entered with `fuel = length`; each iteration removes
`min length dts ≥ 1` bytes, so the fuel never runs out (see
`readMemoryDataLoop`). -/
def read_memory_data (readMem : Nat → Nat → List Nat) (dts address length : Nat) : List Nat :=
  readMemoryDataLoop readMem dts length address length

/-- The sequence of `(address, length)` requests `read_memory_data` makes to
`self.read_memory`, by the same recursion as `readMemoryDataLoop`. -/
def readMemoryDataCallsLoop (dts : Nat) : Nat → Nat → Nat → List (Nat × Nat)
  | 0, _, _ => []
  | fuel + 1, address, length =>
    if length = 0 ∨ dts = 0 then []
    else
      let read_length := min length dts
      (address, read_length) ::
        readMemoryDataCallsLoop dts fuel (address + read_length) (length - read_length)

/-- The `(address, length)` requests issued by `read_memory_data address
length` to the underlying `read_memory`, in order. -/
def read_memory_data_calls (dts address length : Nat) : List (Nat × Nat) :=
  readMemoryDataCallsLoop dts length address length

/-- Checks that a request list starts at `a` and that the address of each
request advances past the previous request by exactly the length of it. -/
def callsChainFrom (a : Nat) : List (Nat × Nat) → Bool
  | [] => true
  | (addr, len) :: rest => addr == a && callsChainFrom (a + len) rest

/-- The per-family constants of `devices.DeviceFamilyInfo` that the engine
reads (`src/stm32loader/devices.py`, lines 47-69). -/
structure DeviceFamilyInfo where
  name : String
  uid_address : Option Nat
  flash_size_address : Option Nat
  flash_page_size : Nat
  transfer_size : Nat
  mass_erase : Bool
  bootloader_id_address : Option Nat
deriving DecidableEq

/-- `DEVICE_FAMILIES[DeviceFamily.F1]` (`devices.py` line 77): no
`bootloader_id_address` is configured for the F1 family. -/
def familyF1 : DeviceFamilyInfo :=
  { name := "F1", uid_address := some 0x1FFFF7E8, flash_size_address := some 0x1FFFF7E0,
    flash_page_size := 1024, transfer_size := 256, mass_erase := true,
    bootloader_id_address := none }

/-- The fields of `devices.DeviceInfo` that `detect_device` and
`get_bootloader_id` read. -/
structure DeviceInfo where
  family : DeviceFamilyInfo
  device_name : String
  product_id : Nat
  bootloader_id : Option Nat
  bootloader_id_address : Option Nat
deriving DecidableEq

/-- The `DeviceInfo.__init__` resolution of the effective bootloader-ID
register address (`devices.py` line 161): the address of the variant,
falling back to the family default (Python `or`). -/
def mkDeviceInfo (family : DeviceFamilyInfo) (name : String) (pid : Nat)
    (bid : Option Nat) (bid_addr : Option Nat) : DeviceInfo :=
  { family := family, device_name := name, product_id := pid, bootloader_id := bid,
    bootloader_id_address := bid_addr <|> family.bootloader_id_address }

/-- `DeviceInfo("F1", "STM32F10xxx", line="Low-density", pid=0x412,
bid=None, ...)` (`devices.py` line 256): neither the variant nor the F1
family carries a bootloader-ID register address. -/
def deviceF1LowDensity : DeviceInfo :=
  mkDeviceInfo familyF1 "STM32F10xxx" 0x412 none none

/-- The methods defined on class `Stm32Bootloader` (`bootloader.py`).
Attribute lookup of any other name on an engine instance raises
`AttributeError`; in particular the class defines no method `warn`. -/
def stm32BootloaderMethodNames : List String :=
  ["write", "write_and_ack", "debug", "command", "get", "get_version", "get_id",
   "get_flash_size", "get_flash_size_and_uid", "get_uid", "detect_device",
   "get_bootloader_id", "format_uid", "read_memory", "go", "write_memory",
   "erase_memory", "extended_erase_memory", "write_protect", "write_unprotect",
   "readout_protect", "readout_unprotect", "read_memory_data", "write_memory_data",
   "verify_data", "pages_from_range", "_wait_for_ack", "_encode_address"]

/-- `Stm32Bootloader.get_bootloader_id` (lines 557-565).  When the device
has no (or a falsy) bootloader-ID register address, the source calls
`self.warn("No bootloader id address for this chip")`; attribute lookup of
`warn` on the instance fails because class `Stm32Bootloader` defines no such
method, raising `AttributeError` before the `return None` is reached.
Otherwise one byte is read through `read_memory_data` (abstracted over
`readMem` as above); indexing an empty read result would raise
`IndexError`. -/
def get_bootloader_id (dts : Nat) (readMem : Nat → Nat → List Nat) (dev : DeviceInfo) :
    Res (Option Nat) :=
  if dev.bootloader_id_address.getD 0 = 0 then
    if "warn" ∈ stm32BootloaderMethodNames then .ok none
    else .err (.attributeError "warn")
  else
    match read_memory_data readMem dts (dev.bootloader_id_address.getD 0) 1 with
    | [] => .err .indexError
    | b :: _ => .ok (some b)

/-- `Stm32Bootloader.detect_device` (lines 538-555), with the `GET_ID`
exchange abstracted as the raw product id it returned and the `DEVICES`
dictionary as the lookup function `catalog`.  `DeviceFamily.NRG.value`
is the string `"NRG"`. -/
def detect_device (catalog : Nat → Option Nat → Option DeviceInfo)
    (device_family : String) (dts : Nat) (readMem : Nat → Nat → List Nat)
    (raw_product_id : Nat) : Res DeviceInfo :=
  let product_id := if device_family = "NRG" then raw_product_id % 256 else raw_product_id
  match catalog product_id none with
  | none => .err (.deviceDetectionError "Unknown device type: no type known for product id")
  | some dev =>
    match get_bootloader_id dts readMem dev with
    | .err e => .err e
    | .ok bootloader_id => .ok ((catalog product_id bootloader_id).getD dev)

/-- The `(0x412, None)` entry of `devices.DEVICES`: the catalog restricted
to the STM32F10xxx Low-density variant, which in `devices.py` is registered
under exactly this key (its `bid` is `None`). -/
def catalogF1LowDensity (pid : Nat) (bid : Option Nat) : Option DeviceInfo :=
  if pid = 0x412 ∧ bid = none then some deviceF1LowDensity else none

/-- The padding `write_memory` appends for a payload of length `n`
(lines 643-647): `0xFF` fill bytes up to the next multiple of 4, nothing
when `n` is already a multiple of 4. -/
def padFF (n : Nat) : List Nat :=
  if n % 4 ≠ 0 then List.replicate (4 - n % 4) 0xFF else []

/-- In-order concatenation of the results of a sequence of
`read_memory (address, length)` requests. -/
def concatReads (readMem : Nat → Nat → List Nat) : List (Nat × Nat) → List Nat
  | [] => []
  | c :: rest => readMem c.1 c.2 ++ concatReads readMem rest

/-- In-order concatenation of the payload bytes of a sequence of data
frames, i.e. of each frame after its leading opcode byte. -/
def framePayloads : List (List Nat) → List Nat
  | [] => []
  | f :: rest => f.drop 1 ++ framePayloads rest

/-- C1: the claim states that for a device variant without a bootloader-ID
register address, `detect_device` returns normally with the product-ID-only
variant and bootloader ID `None`, raising no error of any kind.  The code
violates this: after the successful `(0x412, None)` lookup (STM32F10xxx
Low-density, whose effective bootloader-ID address is `None`),
`get_bootloader_id` evaluates `self.warn(...)`, and class `Stm32Bootloader`
defines no method `warn`, so the call raises `AttributeError` instead of
returning.  This theorem evaluates the code at that failing input. -/
theorem C1_detect_device_raises_attribute_error :
    Stm32.detect_device Stm32.catalogF1LowDensity "F1" 256 (fun _ _ => []) 0x412
      = .err (.attributeError "warn") ∧
    Stm32.deviceF1LowDensity.bootloader_id_address = none := by
  constructor <;> rfl

/-- C2: the claim states that the constructed `flash_page_size` comes from
the `FLASH_PAGE_SIZE` table (1024 for `"F1"`, default 1024 for an absent
family) and never from the `FLASH_SIZE_ADDRESS` table.  The code violates
this: `__init__` overwrites the page-size value with the `FLASH_SIZE_ADDRESS`
lookup, so family `"F1"` yields the register address `0x1FFFF7E0` (not 1024)
and family `"H5"` (absent from `FLASH_SIZE_ADDRESS`) yields `None` (not the
default 1024).  This theorem evaluates the constructor at those inputs. -/
theorem C2_flash_page_size_from_wrong_table :
    Stm32.init_flash_page_size (some "F1") = some 0x1FFFF7E0 ∧
    Stm32.init_flash_page_size (some "F1") = Stm32.FLASH_SIZE_ADDRESS "F1" ∧
    Stm32.init_flash_page_size (some "F1") ≠ some 1024 ∧
    Stm32.FLASH_PAGE_SIZE "F1" = some 1024 ∧
    Stm32.init_flash_page_size (some "H5") = none ∧
    Stm32.FLASH_PAGE_SIZE "H5" = some (128 * 1024) ∧
    Stm32.init_flash_page_size none = none := by
  refine ⟨rfl, rfl, ?_, rfl, rfl, ?_, rfl⟩ <;> decide

/-- C5: the claim states that, after the EXTENDED_ERASE command is ACKed, a
status byte other than ACK/NACK raises an "unknown response" `CommandError`
carrying the hex value of the byte.  The code instead evaluates `hex(reply)` with
no variable `reply` in scope, raising `NameError`.  This theorem evaluates
the code at status byte `0x00` (and confirms the NACK branch does raise the
`CommandError` the claim describes). -/
theorem C5_extended_erase_unknown_response_name_error :
    Stm32.extended_erase_memory { ints := [some 0x79, some 0x00], sent := [] }
      = (.err (.nameError "reply"),
         { ints := [], sent := [[0x44, 0xFF, 0xFF]] }) ∧
    Stm32.extended_erase_memory { ints := [some 0x79, some 0x1F], sent := [] }
      = (.err (.commandError "NACK erase command"),
         { ints := [], sent := [[0x44, 0xFF, 0xFF]] }) := by
  constructor <;> rfl

/-- C6: the claim states that `_wait_for_ack` classifies a byte with no
additional receive afterwards, reports a non-ACK/non-NACK byte as an
"unknown response" error, and fails with the timeout `CommandError` exactly
when no byte at all was received.  The code violates all three: after the
retry loop classifies `0x00` it performs one more receive and returns a
boolean built from that second value (no "unknown response" error is ever
raised — that branch is after `return`); and with receives NACK-then-timeout
it raises the timeout error although a byte (the NACK) was received. -/
theorem C6_wait_for_ack_extra_receive :
    Stm32.wait_for_ack { ints := [some 0x00, some 0x79], sent := [] }
      = (.ok true, { ints := [], sent := [] }) ∧
    Stm32.wait_for_ack { ints := [some 0x1F, none], sent := [] }
      = (.err (.commandError "Can\x27t read port or timeout"),
         { ints := [], sent := [] }) := by
  constructor <;> rfl

/-- C3 counterexample: the claim states that a non-ACK trailing status byte
makes `get()` fail with a command error.  On the exchange ACK, count 1,
version 0x31, opcode 0x44, trailing NACK (0x1F ≠ ACK), `get` returns
normally with the version — no error is raised. -/
theorem C3_counterexample_trailing_nack_returns_ok :
    Stm32.get { ints := [some 0x79, some 1, some 0x31, some 0x44, some 0x1F], sent := [] }
      = (.ok { version := some 0x31, supported_commands := [0x44], extended_erase := true },
         { ints := [], sent := [[0x00]] }) := by
  rfl

/-- C4 counterexample: the claim states that `write_memory` propagates a
`CommandError` and never returns normally when the trailing status byte is
not ACK.  With the command ACKed and trailing status NACK (0x1F), the call
returns normally (`ok`), only logging "Programming failed". -/
theorem C4_counterexample_trailing_nack_returns_ok :
    Stm32.write_memory 256 64 0x08000000 [1, 2, 3, 4]
        { ints := [some 0x79, some 0x1F], sent := [] }
      = (.ok (), [1, 2, 3, 4],
         { ints := [],
           sent := [[0x31, 0x08, 0x00, 0x00, 0x00, 3], [0x31, 1, 2, 3, 4]] }) := by
  rfl

theorem readCmds_map_some (cmds : List Nat) (tail : List (Option Nat)) (sent : List (List Nat)) :
    readCmds cmds.length { ints := cmds.map some ++ tail, sent := sent }
      = (cmds.map some, { ints := tail, sent := sent }) := by
  induction cmds generalizing tail with
  | nil => rfl
  | cons c cs ih => simp [readCmds, recvInt, ih]

/-- C3 (amended): when the GET opcode is ACKed and the count, version and
supported-opcode bytes are read, `get` returns the version and populates
`supported_commands` and `extended_erase` for ANY trailing status byte `t`;
a non-ACK trailing byte is only logged ("Get command not completed"), it
does not make `get` fail with a command error. -/
theorem C3_amended_get_trailing_byte_logged_only (v t : Nat) (cmds : List Nat)
    (rest : List (Option Nat)) (sent : List (List Nat)) (n : Nat) (hn : cmds.length = n) :
    get { ints := some 0x79 :: some n :: some v :: (cmds.map some ++ (some t :: rest)),
          sent := sent }
      = (.ok { version := some v, supported_commands := cmds,
               extended_erase := cmds.contains 0x44 },
         { ints := rest, sent := sent ++ [[0x00]] }) := by
  subst hn
  simp [get, command, write_and_ack, writeAndAckRead, recvInt, readCmds_map_some, ACK,
    List.all_map, Function.comp_def, List.map_map]

/-- Witness for the amended theorem of C3 at the concrete exchange of spec §8:
ACK, count 1, version 0x31, opcode 0x44, trailing ACK. -/
theorem C3_amended_witness :
    get { ints := [some 0x79, some 1, some 0x31, some 0x44, some 0x79], sent := [] }
      = (.ok { version := some 0x31, supported_commands := [0x44],
               extended_erase := [0x44].contains 0x44 },
         { ints := [], sent := [] ++ [[0x00]] }) :=
  C3_amended_get_trailing_byte_logged_only 0x31 0x79 [0x44] [] [] 1 rfl

/-- C4 (amended): with the WRITE_MEMORY command ACKed, `write_memory`
returns normally for ANY trailing status byte `t`; a non-ACK trailing byte
is only logged ("Programming failed"), no `CommandError` propagates. -/
theorem C4_amended_trailing_byte_logged_only (dts mts address t : Nat) (data : List Nat)
    (rest : List (Option Nat)) (sent : List (List Nat))
    (h0 : 0 < data.length) (h1 : data.length ≤ dts) :
    (write_memory dts mts address data
        { ints := some 0x79 :: some t :: rest, sent := sent }).1 = .ok () := by
  have h0' : data.length ≠ 0 := Nat.pos_iff_ne_zero.mp h0
  have h1' : ¬ dts < data.length := not_lt.mpr h1
  simp [write_memory, command, write_and_ack, writeAndAckRead, recvInt, sendFrames,
    ACK, h0', h1']

/-- Witness for the amended theorem of C4: 3-byte write, trailing status NACK. -/
theorem C4_amended_witness :
    (write_memory 256 64 0 [1, 2, 3]
        { ints := [some 0x79, some 0x1F], sent := [] }).1 = .ok () :=
  C4_amended_trailing_byte_logged_only 256 64 0 0x1F [1, 2, 3] [] []
    (by decide) (by decide)

theorem writeMemChunksLoop_payloads (mts : Nat) (hmts : 0 < mts) (data : List Nat) :
    ∀ fuel offset bts, offset + bts = data.length → bts ≤ fuel →
      framePayloads (writeMemChunksLoop mts data fuel offset bts) = data.drop offset := by
  intro fuel
  induction fuel with
  | zero =>
    intro offset bts h hle
    have hb : bts = 0 := Nat.le_zero.mp hle
    subst hb
    have ho : offset = data.length := by omega
    simp [writeMemChunksLoop, framePayloads, ho, List.drop_length]
  | succ fuel ih =>
    intro offset bts h hle
    by_cases hb : bts = 0
    · subst hb
      have ho : offset = data.length := by omega
      simp [writeMemChunksLoop, framePayloads, ho, List.drop_length]
    · have hm : ¬ (bts = 0 ∨ mts = 0) := by omega
      have ht1 : 0 < min bts mts := Nat.lt_min.mpr ⟨Nat.pos_of_ne_zero hb, hmts⟩
      have ht2 : min bts mts ≤ bts := Nat.min_le_left _ _
      simp only [writeMemChunksLoop, if_neg hm, framePayloads, List.drop_succ_cons,
        List.drop_zero]
      rw [ih (offset + min bts mts) (bts - min bts mts) (by omega) (by omega)]
      rw [← List.drop_drop]
      exact List.take_append_drop _ _

theorem padded_eq (data : List Nat) :
    (if data.length % 4 = 0 then data else data ++ List.replicate (4 - data.length % 4) 0xFF)
      = data ++ padFF data.length := by
  by_cases h : data.length % 4 = 0 <;> simp [padFF, h]

/-- C7: for `0 < len(data) ≤ data_transfer_size`, the WRITE_MEMORY command
one-byte length field of the command frame is the original (unpadded) length minus one,
while the payload bytes transmitted in the data frames are `data` followed
by `0xFF` fill bytes up to the next multiple of 4 (no fill when the length
is already a multiple of 4). -/
theorem C7_write_padding_law (dts mts address t : Nat) (data : List Nat)
    (rest : List (Option Nat)) (sent : List (List Nat))
    (h0 : 0 < data.length) (h1 : data.length ≤ dts) (hdts : dts ≤ 256) (hmts : 0 < mts) :
    (write_memory dts mts address data
        { ints := some 0x79 :: some t :: rest, sent := sent }).2.2.sent
      = sent ++ [0x31 :: encodeAddr address ++ [data.length - 1]]
          ++ writeMemChunks mts (data ++ padFF data.length) 0 (data ++ padFF data.length).length
  ∧ framePayloads
        (writeMemChunks mts (data ++ padFF data.length) 0 (data ++ padFF data.length).length)
      = data ++ padFF data.length
  ∧ (data.length % 4 ≠ 0 →
        padFF data.length = List.replicate (4 - data.length % 4) 0xFF
        ∧ (data ++ padFF data.length).length % 4 = 0)
  ∧ (data.length % 4 = 0 → padFF data.length = [])
  ∧ data.length - 1 < 256 := by
  have h0' : data.length ≠ 0 := Nat.pos_iff_ne_zero.mp h0
  have h1' : ¬ dts < data.length := not_lt.mpr h1
  refine ⟨?_, ?_, ?_, ?_, by omega⟩
  · simp [write_memory, command, write_and_ack, writeAndAckRead, recvInt, sendFrames,
      ACK, h0', h1', padded_eq, List.length_append]
  · have := writeMemChunksLoop_payloads mts hmts (data ++ padFF data.length)
      (data ++ padFF data.length).length 0 (data ++ padFF data.length).length
      (by omega) (Nat.le_refl _)
    simpa [writeMemChunks] using this
  · intro hm
    refine ⟨by simp [padFF, hm], ?_⟩
    simp [padFF, hm, List.length_append, List.length_replicate]
    omega
  · intro hm
    simp [padFF, hm]

/-- Witness for C7 at a concrete call: a 5-byte payload is padded with
three `0xFF` bytes while the length field byte is 4. -/
theorem C7_write_padding_law_witness :
    (write_memory 256 64 0x08000000 [1, 2, 3, 4, 5]
        { ints := some 0x79 :: some 0x79 :: ([] : List (Option Nat)), sent := [] }).2.2.sent
      = [] ++ [0x31 :: encodeAddr 0x08000000 ++ [[1, 2, 3, 4, 5].length - 1]]
          ++ writeMemChunks 64 ([1, 2, 3, 4, 5] ++ padFF [1, 2, 3, 4, 5].length) 0
              ([1, 2, 3, 4, 5] ++ padFF [1, 2, 3, 4, 5].length).length
  ∧ framePayloads
        (writeMemChunks 64 ([1, 2, 3, 4, 5] ++ padFF [1, 2, 3, 4, 5].length) 0
          ([1, 2, 3, 4, 5] ++ padFF [1, 2, 3, 4, 5].length).length)
      = [1, 2, 3, 4, 5] ++ padFF [1, 2, 3, 4, 5].length
  ∧ ([1, 2, 3, 4, 5].length % 4 ≠ 0 →
        padFF [1, 2, 3, 4, 5].length = List.replicate (4 - [1, 2, 3, 4, 5].length % 4) 0xFF
        ∧ ([1, 2, 3, 4, 5] ++ padFF [1, 2, 3, 4, 5].length).length % 4 = 0)
  ∧ ([1, 2, 3, 4, 5].length % 4 = 0 → padFF [1, 2, 3, 4, 5].length = [])
  ∧ [1, 2, 3, 4, 5].length - 1 < 256 :=
  C7_write_padding_law 256 64 0x08000000 0x79 [1, 2, 3, 4, 5] [] []
    (by decide) (by decide) (by decide) (by decide)

/-- C10: `write_memory` pads the buffer of the caller in place: when
`0 < len(data) ≤ data_transfer_size` and the length is not a multiple of 4,
after the call that buffer is `data ++ 0xFF-fill`, grown to the next
multiple of 4; when the length is a multiple of 4 the buffer is unchanged;
and the empty buffer returns immediately with no transmission and no state
change at all. -/
theorem C10_buffer_padded_in_place (dts mts address : Nat) (data : List Nat)
    (rest : List (Option Nat)) (sent : List (List Nat)) (h1 : data.length ≤ dts) :
    (0 < data.length → data.length % 4 ≠ 0 →
        (write_memory dts mts address data { ints := some 0x79 :: rest, sent := sent }).2.1
            = data ++ List.replicate (4 - data.length % 4) 0xFF
        ∧ ((write_memory dts mts address data
              { ints := some 0x79 :: rest, sent := sent }).2.1).length
            = 4 * ((data.length + 3) / 4)
        ∧ data.length < ((write_memory dts mts address data
              { ints := some 0x79 :: rest, sent := sent }).2.1).length)
  ∧ (0 < data.length → data.length % 4 = 0 →
        (write_memory dts mts address data { ints := some 0x79 :: rest, sent := sent }).2.1
          = data)
  ∧ (∀ s : St, write_memory dts mts address [] s = (.ok (), [], s)) := by
  refine ⟨?_, ?_, fun s => by simp [write_memory]⟩
  · intro h0 hm
    have h0' : data.length ≠ 0 := Nat.pos_iff_ne_zero.mp h0
    have h1' : ¬ dts < data.length := not_lt.mpr h1
    have hr : (write_memory dts mts address data
        { ints := some 0x79 :: rest, sent := sent }).2.1
        = data ++ List.replicate (4 - data.length % 4) 0xFF := by
      simp [write_memory, command, write_and_ack, writeAndAckRead, recvInt, sendFrames,
        ACK, h0', h1', hm]
    refine ⟨hr, ?_, ?_⟩ <;>
      simp [hr, List.length_append, List.length_replicate] <;> omega
  · intro h0 hm
    have h0' : data.length ≠ 0 := Nat.pos_iff_ne_zero.mp h0
    have h1' : ¬ dts < data.length := not_lt.mpr h1
    simp [write_memory, command, write_and_ack, writeAndAckRead, recvInt, sendFrames,
      ACK, h0', h1', hm]

/-- Witness for C10 at a concrete call: a 3-byte buffer grows to
`[1, 2, 3, 0xFF]` in place. -/
theorem C10_buffer_padded_in_place_witness :
    (0 < [1, 2, 3].length → [1, 2, 3].length % 4 ≠ 0 →
        (write_memory 256 64 0 [1, 2, 3]
            { ints := some 0x79 :: [some 0x1F], sent := [] }).2.1
            = [1, 2, 3] ++ List.replicate (4 - [1, 2, 3].length % 4) 0xFF
        ∧ ((write_memory 256 64 0 [1, 2, 3]
              { ints := some 0x79 :: [some 0x1F], sent := [] }).2.1).length
            = 4 * (([1, 2, 3].length + 3) / 4)
        ∧ [1, 2, 3].length < ((write_memory 256 64 0 [1, 2, 3]
              { ints := some 0x79 :: [some 0x1F], sent := [] }).2.1).length)
  ∧ (0 < [1, 2, 3].length → [1, 2, 3].length % 4 = 0 →
        (write_memory 256 64 0 [1, 2, 3]
            { ints := some 0x79 :: [some 0x1F], sent := [] }).2.1 = [1, 2, 3])
  ∧ (∀ s : St, write_memory 256 64 0 [] s = (.ok (), [], s)) :=
  C10_buffer_padded_in_place 256 64 0 [1, 2, 3] [some 0x1F] [] (by decide)

theorem recvInt_sent (s : St) : ((recvInt s).2).sent = s.sent := by
  obtain ⟨ints, sent⟩ := s
  cases ints <;> rfl

theorem waitLoopRead_sent (n : Nat) (s : St) : ((waitLoopRead n s).2).sent = s.sent := by
  induction n generalizing s with
  | zero => rfl
  | succ n ih =>
    rw [waitLoopRead]
    rcases hr : recvInt s with ⟨a, s₁⟩
    have h1 : s₁.sent = s.sent := by
      have := recvInt_sent s
      rw [hr] at this
      exact this
    by_cases ha : a = some NACK <;> simp [ha, ih, h1]

theorem wait_for_ack_sent (s : St) : ((wait_for_ack s).2).sent = s.sent := by
  rw [wait_for_ack]
  rcases hw : waitLoopRead 5 s with ⟨ack, s₁⟩
  have h1 : s₁.sent = s.sent := by
    have := waitLoopRead_sent 5 s
    rw [hw] at this
    exact this
  by_cases ha : ack = none
  · simp [ha, h1]
  · rcases hr : recvInt s₁ with ⟨a₂, s₂⟩
    have h2 : s₂.sent = s₁.sent := by
      have := recvInt_sent s₁
      rw [hr] at this
      exact this
    simp [ha, hr, h2, h1]

theorem eraseWaitForAck_sent (s : St) : ((eraseWaitForAck s).2).sent = s.sent := by
  rw [eraseWaitForAck]
  rcases hw : wait_for_ack s with ⟨r, s'⟩
  have h1 : s'.sent = s.sent := by
    have := wait_for_ack_sent s
    rw [hw] at this
    exact this
  cases r <;> simp [h1]

theorem foldl_xor_lt_256 (l : List Nat) :
    ∀ a : Nat, a < 256 → (∀ p ∈ l, p < 256) → l.foldl (fun a b => a ^^^ b) a < 256 := by
  induction l with
  | nil => intro a ha _; simpa using ha
  | cons x xs ih =>
    intro a ha hl
    simp only [List.foldl_cons]
    have hx : x < 256 := hl x (by simp)
    have hax : a ^^^ x < 256 := by
      have h8 : (256 : Nat) = 2 ^ 8 := by norm_num
      rw [h8] at ha hx ⊢
      exact Nat.xor_lt_two_pow ha hx
    exact ih (a ^^^ x) hax (fun p hp => hl p (by simp [hp]))

/-- C9: on a device without extended erase, `erase_memory` with a non-empty
list of at most 255 page indices (each a byte) transmits, after the ERASE
opcode frame, the count-minus-one byte, the page-index bytes in order, and a
checksum byte equal to the XOR-reduction of count−1 with every page byte;
with more than 255 entries it raises `PageIndexError` with only the ERASE
opcode frame transmitted — no page bytes. -/
theorem C9_erase_page_frames (device_family : String) (flash_size flash_page_size : Nat)
    (pages : List Nat) (rest : List (Option Nat)) (sent : List (List Nat))
    (hne : pages ≠ []) (hb : ∀ p ∈ pages, p < 256) :
    (pages.length ≤ 255 →
        ((erase_memory false device_family flash_size flash_page_size (some pages)
            { ints := some 0x79 :: rest, sent := sent }).2).sent
          = sent ++ [[0x43], [pages.length - 1], pages,
                     [pages.foldl (fun a b => a ^^^ b) (pages.length - 1)]])
  ∧ (255 < pages.length →
        erase_memory false device_family flash_size flash_page_size (some pages)
            { ints := some 0x79 :: rest, sent := sent }
          = (.err (.pageIndexError
                "Can not erase more than 255 pages at once. Set pages to None to do global erase or supply fewer pages."),
             { ints := rest, sent := sent ++ [[0x43]] })) := by
  have hne' : pages.isEmpty = false := by
    cases pages with
    | nil => exact absurd rfl hne
    | cons a l => rfl
  constructor
  · intro hle
    have hcnt : (pages.length - 1) % 256 = pages.length - 1 := by omega
    have hck : pages.foldl (fun a b => a ^^^ b) (pages.length - 1) % 256
        = pages.foldl (fun a b => a ^^^ b) (pages.length - 1) := by
      have := foldl_xor_lt_256 pages (pages.length - 1) (by omega) hb
      omega
    have hle' : ¬ 255 < pages.length := not_lt.mpr hle
    simp [erase_memory, command, write_and_ack, writeAndAckRead, recvInt, ACK,
      erasePagesBranch, hne', hle', writeData, sendFrames, WData.toFrame,
      eraseWaitForAck_sent, hcnt, hck]
  · intro hgt
    have hle' : ¬ pages.length ≤ 255 := not_le.mpr hgt
    simp [erase_memory, command, write_and_ack, writeAndAckRead, recvInt, ACK,
      erasePagesBranch, hne', hle', not_lt.mp, hgt]

/-- Witness for C9 at the concrete scenario of spec §8:
`erase_memory(pages=[0,1,2])` transmits `[0x43][2][0,1,2][checksum 2^0^1^2]`. -/
theorem C9_erase_page_frames_witness :
    (([0, 1, 2] : List Nat).length ≤ 255 →
        ((erase_memory false "F1" 0 1024 (some [0, 1, 2])
            { ints := some 0x79 :: [some 0x79], sent := [] }).2).sent
          = [] ++ [[0x43], [[0, 1, 2].length - 1], [0, 1, 2],
                   [([0, 1, 2] : List Nat).foldl (fun a b => a ^^^ b) ([0, 1, 2].length - 1)]])
  ∧ (255 < ([0, 1, 2] : List Nat).length →
        erase_memory false "F1" 0 1024 (some [0, 1, 2])
            { ints := some 0x79 :: [some 0x79], sent := [] }
          = (.err (.pageIndexError
                "Can not erase more than 255 pages at once. Set pages to None to do global erase or supply fewer pages."),
             { ints := [some 0x79], sent := [] ++ [[0x43]] })) :=
  C9_erase_page_frames "F1" 0 1024 [0, 1, 2] [some 0x79] [] (by decide) (by decide)

theorem readMemoryDataCallsLoop_zero_length (dts fuel address : Nat) :
    readMemoryDataCallsLoop dts fuel address 0 = [] := by
  cases fuel <;> simp [readMemoryDataCallsLoop]

theorem readMemoryDataCallsLoop_length (dts : Nat) (hdts : 0 < dts) :
    ∀ fuel address length, length ≤ fuel →
      (readMemoryDataCallsLoop dts fuel address length).length = (length + dts - 1) / dts := by
  intro fuel
  induction fuel with
  | zero =>
    intro address length hle
    have h0 : length = 0 := Nat.le_zero.mp hle
    subst h0
    simp [readMemoryDataCallsLoop_zero_length]
    exact (Nat.div_eq_of_lt (by omega)).symm
  | succ fuel ih =>
    intro address length hle
    by_cases h0 : length = 0
    · subst h0
      simp [readMemoryDataCallsLoop_zero_length]
      exact (Nat.div_eq_of_lt (by omega)).symm
    · have hcond : ¬ (length = 0 ∨ dts = 0) := by omega
      rw [show length + dts - 1 = (length - 1) + dts by omega, Nat.add_div_right _ hdts]
      simp only [readMemoryDataCallsLoop, if_neg hcond, List.length_cons]
      congr 1
      by_cases hc : length ≤ dts
      · have hmin : min length dts = length := Nat.min_eq_left hc
        rw [hmin, Nat.sub_self, readMemoryDataCallsLoop_zero_length]
        symm
        simp
        exact Nat.div_eq_of_lt (by omega)
      · have hmin : min length dts = dts := Nat.min_eq_right (le_of_not_le hc)
        rw [hmin, ih (address + dts) (length - dts) (by omega)]
        congr 1
        omega

theorem readMemoryDataCallsLoop_bounds (dts : Nat) :
    ∀ fuel address length,
      ∀ c ∈ readMemoryDataCallsLoop dts fuel address length, c.2 ≤ dts ∧ 0 < c.2 := by
  intro fuel
  induction fuel with
  | zero => intro address length c hc; simp [readMemoryDataCallsLoop] at hc
  | succ fuel ih =>
    intro address length c hc
    by_cases hcond : length = 0 ∨ dts = 0
    · simp [readMemoryDataCallsLoop, hcond] at hc
    · simp only [readMemoryDataCallsLoop, if_neg hcond, List.mem_cons] at hc
      rcases hc with hc | hc
      · subst hc
        constructor
        · exact Nat.min_le_right _ _
        · exact Nat.lt_min.mpr ⟨Nat.pos_of_ne_zero (fun h => hcond (Or.inl h)),
            Nat.pos_of_ne_zero (fun h => hcond (Or.inr h))⟩
      · exact ih _ _ c hc

theorem readMemoryDataCallsLoop_chain (dts : Nat) :
    ∀ fuel address length,
      callsChainFrom address (readMemoryDataCallsLoop dts fuel address length) = true := by
  intro fuel
  induction fuel with
  | zero => intro address length; rfl
  | succ fuel ih =>
    intro address length
    by_cases hcond : length = 0 ∨ dts = 0
    · simp [readMemoryDataCallsLoop, hcond, callsChainFrom]
    · simp only [readMemoryDataCallsLoop, if_neg hcond]
      simp [callsChainFrom, ih]

theorem logicalRead_append (mem : Nat → Nat) (a m k : Nat) :
    logicalRead mem a m ++ logicalRead mem (a + m) k = logicalRead mem a (m + k) := by
  simp [logicalRead, List.range_add, List.map_map, Function.comp_def, Nat.add_assoc]

theorem readMemoryDataLoop_logical (mem : Nat → Nat) (dts : Nat) (hdts : 0 < dts) :
    ∀ fuel address length, length ≤ fuel →
      readMemoryDataLoop (logicalRead mem) dts fuel address length
        = logicalRead mem address length := by
  intro fuel
  induction fuel with
  | zero =>
    intro address length hle
    have h0 : length = 0 := Nat.le_zero.mp hle
    subst h0
    simp [readMemoryDataLoop, logicalRead]
  | succ fuel ih =>
    intro address length hle
    by_cases h0 : length = 0
    · subst h0
      simp [readMemoryDataLoop, logicalRead]
    · have hcond : ¬ (length = 0 ∨ dts = 0) := by omega
      have hml : min length dts ≤ length := Nat.min_le_left _ _
      simp only [readMemoryDataLoop, if_neg hcond]
      rw [ih (address + min length dts) (length - min length dts) (by omega),
        logicalRead_append]
      congr 1
      omega

theorem readMemoryDataLoop_concatReads (readMem : Nat → Nat → List Nat) (dts : Nat) :
    ∀ fuel address length,
      readMemoryDataLoop readMem dts fuel address length
        = concatReads readMem (readMemoryDataCallsLoop dts fuel address length) := by
  intro fuel
  induction fuel with
  | zero => intro address length; rfl
  | succ fuel ih =>
    intro address length
    by_cases hcond : length = 0 ∨ dts = 0
    · simp [readMemoryDataLoop, readMemoryDataCallsLoop, hcond, concatReads]
    · simp only [readMemoryDataLoop, readMemoryDataCallsLoop, if_neg hcond, concatReads]
      rw [ih]

/-- C8: `read_memory_data(address, length)` issues exactly
`ceil(length / data_transfer_size)` underlying `read_memory` requests, each
of at most `data_transfer_size` bytes, with the requested address advancing
by the size of each chunk; its result is the in-order concatenation of the chunk
results, and when each underlying read behaves as a logical memory read the
total equals one logical read of `length` bytes from `address`. -/
theorem C8_read_memory_data_chunking (mem : Nat → Nat) (dts address length : Nat)
    (hdts : 0 < dts) (hlen : 1 ≤ length) :
    (read_memory_data_calls dts address length).length = (length + dts - 1) / dts
  ∧ (∀ c ∈ read_memory_data_calls dts address length, c.2 ≤ dts ∧ 0 < c.2)
  ∧ callsChainFrom address (read_memory_data_calls dts address length) = true
  ∧ read_memory_data (logicalRead mem) dts address length
      = concatReads (logicalRead mem) (read_memory_data_calls dts address length)
  ∧ read_memory_data (logicalRead mem) dts address length = logicalRead mem address length := by
  refine ⟨?_, ?_, ?_, ?_, ?_⟩
  · exact readMemoryDataCallsLoop_length dts hdts length address length (Nat.le_refl _)
  · exact readMemoryDataCallsLoop_bounds dts length address length
  · exact readMemoryDataCallsLoop_chain dts length address length
  · exact readMemoryDataLoop_concatReads (logicalRead mem) dts length address length
  · exact readMemoryDataLoop_logical mem dts hdts length address length (Nat.le_refl _)

/-- Witness for C8 at `dts = 4`, `address = 100`, `length = 10`: three
requests `(100, 4), (104, 4), (108, 2)` whose concatenation is the logical
10-byte read. -/
theorem C8_read_memory_data_chunking_witness :
    (read_memory_data_calls 4 100 10).length = (10 + 4 - 1) / 4
  ∧ (∀ c ∈ read_memory_data_calls 4 100 10, c.2 ≤ 4 ∧ 0 < c.2)
  ∧ callsChainFrom 100 (read_memory_data_calls 4 100 10) = true
  ∧ read_memory_data (logicalRead (fun i => i % 256)) 4 100 10
      = concatReads (logicalRead (fun i => i % 256)) (read_memory_data_calls 4 100 10)
  ∧ read_memory_data (logicalRead (fun i => i % 256)) 4 100 10
      = logicalRead (fun i => i % 256) 100 10 :=
  C8_read_memory_data_chunking (fun i => i % 256) 4 100 10 (by decide) (by decide)

end Stm32
